import Mathlib

/-
Verification of the MediaNest documentation quality dashboard
(tests/docs-qa/quality_dashboard.py and the checker modules it aggregates).

Modelling conventions:
- Python floats are modelled as exact rationals.  All constants appearing in
  the code (0.25, 0.20, 0.15, score penalties, thresholds) are decimal
  literals, and every property checked here is robust to the tiny binary
  floating-point representation error, so the rational model is faithful.
- round(x, n) is modelled as rounding half away from midpoint via the integer
  rounding function; none of the values reasoned about lie on a half-way
  point, so the difference with Python banker rounding is immaterial.
- Python dicts whose keys matter are modelled as association lists (insertion
  order preserved) or as structures with Option-valued fields, where a none
  field models an absent key.
- A checker invocation that may raise is modelled as an Except String value:
  ok carries the returned result dict, error carries the exception message.
-/

/-- Rounding to one decimal place, as round(x, 1) in the source. -/
def round1 (x : ℚ) : ℚ := ((round (10 * x) : ℤ) : ℚ) / 10

/-- Rounding to two decimal places, as round(x, 2) in the source. -/
def round2 (x : ℚ) : ℚ := ((round (100 * x) : ℤ) : ℚ) / 100

/-- The summary dict of one module result.  A none field models an absent
key.  Only the keys read by the dashboard aggregation and the keys written by
the link checker report are modelled; purely informational keys are
omitted. -/
structure Summary where
  success_rate : Option ℚ := none
  quality_score : Option ℚ := none
  accessibility_score : Option ℚ := none
  responsiveness_score : Option ℚ := none
  performance_score : Option ℚ := none
  critical_issues : Option Nat := none
  total_issues : Option Nat := none
  total_links : Option Nat := none
  valid_links : Option Nat := none
  invalid_links : Option Nat := none
deriving Repr, DecidableEq

/-- One entry of a detailed_issues list; the aggregation only reads the
severity key (via i.get) so only it is modelled. -/
structure DetailedIssue where
  severity : Option String := none
deriving Repr, DecidableEq

/-- One entry of a broken_links list; the aggregation only uses the length of
the list, the url is kept for concreteness. -/
structure BrokenLink where
  url : String := ""
deriving Repr, DecidableEq

/-- The result dict returned by one checker, with the keys the dashboard
reads.  A none field models an absent key. -/
structure ModuleResult where
  summary : Option Summary := none
  error : Option String := none
  broken_links : Option (List BrokenLink) := none
  detailed_issues : Option (List DetailedIssue) := none
  recommendations : Option (List String) := none
deriving Repr, DecidableEq

/-- The results dict of a run: module key to module result, in insertion
order. -/
abbrev Results := List (String × ModuleResult)

/-- The weights dict of _calculate_quality_metrics. -/
def weights (key : String) : ℚ :=
  if key = "link_score" then 25/100
  else if key = "formatting_score" then 20/100
  else if key = "accessibility_score" then 25/100
  else if key = "mobile_score" then 15/100
  else if key = "performance_score" then 15/100
  else 0

/-- link_score extraction in _calculate_quality_metrics: default 100.0 when
the module is absent, otherwise summary.success_rate with default 100.0; the
error key is never consulted for this module. -/
def link_score_of (results : Results) : ℚ :=
  match results.lookup "link_check" with
  | none => 100
  | some m => ((m.summary.getD {}).success_rate).getD 100

/-- formatting_score extraction in _calculate_quality_metrics. -/
def formatting_score_of (results : Results) : ℚ :=
  match results.lookup "formatting" with
  | none => 100
  | some m => ((m.summary.getD {}).quality_score).getD 100

/-- accessibility_score extraction in _calculate_quality_metrics. -/
def accessibility_score_of (results : Results) : ℚ :=
  match results.lookup "accessibility" with
  | none => 100
  | some m => ((m.summary.getD {}).accessibility_score).getD 100

/-- mobile_score extraction in _calculate_quality_metrics: when the error key
is present the score keeps its default 100.0 and the summary is ignored. -/
def mobile_score_of (results : Results) : ℚ :=
  match results.lookup "mobile" with
  | none => 100
  | some m =>
    if m.error.isSome then 100
    else ((m.summary.getD {}).responsiveness_score).getD 100

/-- performance_score extraction in _calculate_quality_metrics: when the
error key is present the score keeps its default 100.0. -/
def performance_score_of (results : Results) : ℚ :=
  match results.lookup "performance" with
  | none => 100
  | some m =>
    if m.error.isSome then 100
    else ((m.summary.getD {}).performance_score).getD 100

/-- total_issues contribution of one module result in the counting loop of
_calculate_quality_metrics. -/
def module_total_issues (m : ModuleResult) : Nat :=
  (match m.broken_links with | some bs => bs.length | none => 0) +
  (match m.detailed_issues with | some issues => issues.length | none => 0) +
  (match m.summary with
   | some s => if s.critical_issues.isSome then s.total_issues.getD 0 else 0
   | none => 0)

/-- critical_issues contribution of one module result in the counting loop of
_calculate_quality_metrics. -/
def module_critical_issues (m : ModuleResult) : Nat :=
  (match m.broken_links with | some bs => bs.length | none => 0) +
  (match m.detailed_issues with
   | some issues => (issues.filter (fun i => i.severity = some "critical")).length
   | none => 0) +
  (match m.summary with | some s => s.critical_issues.getD 0 | none => 0)

/-- recommendations_count contribution of one module result. -/
def module_recommendations_count (m : ModuleResult) : Nat :=
  (m.recommendations.getD []).length

/-- The QualityMetrics dataclass (the timestamp field is omitted: it is never
read by gate evaluation or aggregation). -/
structure QualityMetrics where
  overall_score : ℚ
  link_check_score : ℚ
  formatting_score : ℚ
  accessibility_score : ℚ
  mobile_score : ℚ
  performance_score : ℚ
  total_issues : Nat
  critical_issues : Nat
  recommendations_count : Nat
deriving Repr, DecidableEq

/-- QualityDashboard._calculate_quality_metrics: extracts per-module scores
with default 100.0, combines them with the fixed weights dict with no
re-normalization, and counts issues over all present module results. -/
def calculate_quality_metrics (results : Results) : QualityMetrics :=
  let link_score := link_score_of results
  let formatting_score := formatting_score_of results
  let accessibility_score := accessibility_score_of results
  let mobile_score := mobile_score_of results
  let performance_score := performance_score_of results
  let overall_score :=
    link_score * weights "link_score" +
    formatting_score * weights "formatting_score" +
    accessibility_score * weights "accessibility_score" +
    mobile_score * weights "mobile_score" +
    performance_score * weights "performance_score"
  { overall_score := round1 overall_score
    link_check_score := round1 link_score
    formatting_score := round1 formatting_score
    accessibility_score := round1 accessibility_score
    mobile_score := round1 mobile_score
    performance_score := round1 performance_score
    total_issues := (results.map (fun p => module_total_issues p.2)).sum
    critical_issues := (results.map (fun p => module_critical_issues p.2)).sum
    recommendations_count := (results.map (fun p => module_recommendations_count p.2)).sum }

/-- The quality_gates dict built in QualityDashboard.__init__, in insertion
order. -/
def default_quality_gates : List (String × ℚ) :=
  [("overall_score", 85), ("link_check_score", 95), ("formatting_score", 90),
   ("accessibility_score", 85), ("mobile_score", 80), ("performance_score", 75),
   ("critical_issues", 0), ("total_issues", 50)]

/-- getattr(metrics, gate_name, 0) in _check_quality_gates, restricted to the
numeric attributes of QualityMetrics; any other name yields the default 0. -/
def metric_value_of (m : QualityMetrics) (name : String) : ℚ :=
  if name = "overall_score" then m.overall_score
  else if name = "link_check_score" then m.link_check_score
  else if name = "formatting_score" then m.formatting_score
  else if name = "accessibility_score" then m.accessibility_score
  else if name = "mobile_score" then m.mobile_score
  else if name = "performance_score" then m.performance_score
  else if name = "total_issues" then (m.total_issues : ℚ)
  else if name = "critical_issues" then (m.critical_issues : ℚ)
  else if name = "recommendations_count" then (m.recommendations_count : ℚ)
  else 0

/-- The numeric attribute names of QualityMetrics, i.e. the gate names that
resolve to an actual metric value. -/
def metric_attribute_names : List String :=
  ["overall_score", "link_check_score", "formatting_score", "accessibility_score",
   "mobile_score", "performance_score", "total_issues", "critical_issues",
   "recommendations_count"]

/-- The pass test of _check_quality_gates: critical_issues passes when the
value is at most the threshold, total_issues when it is strictly below the
threshold, every other gate when the value is at least the threshold. -/
def gate_passed (gate_name : String) (metric_value threshold : ℚ) : Bool :=
  if gate_name = "critical_issues" then decide (metric_value ≤ threshold)
  else if gate_name = "total_issues" then decide (metric_value < threshold)
  else decide (metric_value ≥ threshold)

/-- One named gate entry of gate_results. -/
structure GateResult where
  threshold : ℚ
  actual : ℚ
  passed : Bool
deriving Repr, DecidableEq

/-- The gate_results dict: the named entries plus the synthetic overall entry
(status, passed_gates, total_gates), which is computed from the named entries
only, before the overall entry is inserted. -/
structure GateResults where
  gates : List (String × GateResult)
  overall_passed : Bool
  passed_gates : Nat
  total_gates : Nat
deriving Repr, DecidableEq

/-- QualityDashboard._check_quality_gates. -/
def check_quality_gates (gateSpecs : List (String × ℚ)) (m : QualityMetrics) :
    GateResults :=
  let gs := gateSpecs.map (fun g =>
    let v := metric_value_of m g.1
    (g.1, GateResult.mk g.2 v (gate_passed g.1 v g.2)))
  { gates := gs
    overall_passed := gs.all (fun g => g.2.passed)
    passed_gates := (gs.filter (fun g => g.2.passed)).length
    total_gates := gs.length }

/-- The five checker invocations available to one run; each is the outcome of
calling that checker (ok: result dict, error: exception message). -/
structure Checkers where
  links : Except String ModuleResult
  formatting : Except String ModuleResult
  accessibility : Except String ModuleResult
  mobile : Except String ModuleResult
  performance : Except String ModuleResult

/-- The module schedule of run_comprehensive_qa, in source order: skip name,
results key, checker outcome. -/
def modulesOf (ck : Checkers) :
    List (String × String × Except String ModuleResult) :=
  [("links", "link_check", ck.links),
   ("formatting", "formatting", ck.formatting),
   ("accessibility", "accessibility", ck.accessibility),
   ("mobile", "mobile", ck.mobile),
   ("performance", "performance", ck.performance)]

/-- Mutable state of the try block of run_comprehensive_qa. -/
structure RunState where
  results : Results
  executed : List String
  error : Option String
deriving Repr, DecidableEq

/-- The sequential checker loop inside the try block: a raised exception
jumps to the except handler, so once error is set no later module runs. -/
def runModules :
    List (String × String × Except String ModuleResult) → List String →
      RunState → RunState
  | [], _, st => st
  | m :: rest, skip, st =>
    if st.error.isSome then st
    else if skip.contains m.1 then runModules rest skip st
    else
      match m.2.2 with
      | .ok r =>
        runModules rest skip
          { results := st.results ++ [(m.2.1, r)],
            executed := st.executed ++ [m.2.1], error := st.error }
      | .error e => { st with error := some e }

/-- The message of the first non-skipped checker whose invocation raises, in
schedule order. -/
def first_error_list :
    List (String × String × Except String ModuleResult) → List String →
      Option String
  | [], _ => none
  | m :: rest, skip =>
    if skip.contains m.1 then first_error_list rest skip
    else
      match m.2.2 with
      | .ok _ => first_error_list rest skip
      | .error e => some e

/-- The message of the first non-skipped failing checker of a run. -/
def first_error (ck : Checkers) (skip : List String) : Option String :=
  first_error_list (modulesOf ck) skip

/-- The qa_results dict of run_comprehensive_qa, restricted to the fields the
claims are about.  quality_metrics and quality_gates are none exactly when
they kept their initial unset value (None resp. the empty dict). -/
structure QAResults where
  modules_executed : List String
  modules_skipped : List String
  results : Results
  quality_metrics : Option QualityMetrics
  quality_gates : Option GateResults
  error : Option String
deriving Repr, DecidableEq

/-- QualityDashboard.run_comprehensive_qa: runs the non-skipped checkers in
order inside one try block; an exception from any checker is caught at run
level, setting the top-level error field and leaving quality_metrics and
quality_gates unset; when no checker raises, metrics and gates are
computed. -/
def run_comprehensive_qa (ck : Checkers) (skip : List String) : QAResults :=
  let st := runModules (modulesOf ck) skip
    { results := [], executed := [], error := none }
  match st.error with
  | none =>
    let qm := calculate_quality_metrics st.results
    { modules_executed := st.executed, modules_skipped := skip,
      results := st.results, quality_metrics := some qm,
      quality_gates := some (check_quality_gates default_quality_gates qm),
      error := none }
  | some e =>
    { modules_executed := st.executed, modules_skipped := skip,
      results := st.results, quality_metrics := none,
      quality_gates := none, error := some e }

/-- quality_score in FormattingValidator._generate_validation_report:
max(0, 100 - errors * 10 - warnings * 3 - info * 1). -/
def quality_score (error_count warning_count info_count : ℕ) : ℤ :=
  max 0 (100 - (error_count : ℤ) * 10 - (warning_count : ℤ) * 3 -
    (info_count : ℤ) * 1)

/-- accessibility_score in
AccessibilityTester._generate_accessibility_report:
max(0, 100 - critical * 15 - major * 5 - minor * 1). -/
def accessibility_score (critical_count major_count minor_count : ℕ) : ℤ :=
  max 0 (100 - (critical_count : ℤ) * 15 - (major_count : ℤ) * 5 -
    (minor_count : ℤ) * 1)

/-- responsiveness_score in
MobileResponsivenessTester._generate_responsiveness_report:
max(0, 100 - critical * 20 - major * 5 - minor * 1). -/
def responsiveness_score (critical_count major_count minor_count : ℕ) : ℤ :=
  max 0 (100 - (critical_count : ℤ) * 20 - (major_count : ℤ) * 5 -
    (minor_count : ℤ) * 1)

/-- One LinkResult of the link checker; only validity, url and error are
relevant to report generation. -/
structure LinkResult where
  url : String := ""
  is_valid : Bool := true
  error : Option String := none
deriving Repr, DecidableEq

/-- success_rate in ComprehensiveLinkChecker._generate_report:
valid / total * 100 when links exist, 100 for an empty result set. -/
def success_rate_of (results : List LinkResult) : ℚ :=
  let total_links := results.length
  let valid_links := (results.filter (fun r => r.is_valid)).length
  if total_links > 0 then (valid_links : ℚ) / (total_links : ℚ) * 100 else 100

/-- ComprehensiveLinkChecker._generate_report, restricted to the summary and
broken_links parts the dashboard consumes. -/
def generate_link_report (results : List LinkResult) : ModuleResult :=
  let total_links := results.length
  let valid_links := (results.filter (fun r => r.is_valid)).length
  let broken := results.filter (fun r => !r.is_valid)
  { summary := some
      { total_links := some total_links,
        valid_links := some valid_links,
        invalid_links := some (total_links - valid_links),
        success_rate := some (round2 (success_rate_of results)) },
    broken_links := some (broken.map (fun r => { url := r.url })) }

/-- One PerformanceMetric of the performance monitor; only the name and the
threshold flag feed the score.  PerformanceMonitor._add_metric leaves
threshold_passed at its default True whenever the metric name has no entry
in the thresholds dict, so a failed metric always has a thresholded name. -/
structure PerformanceMetric where
  metric_name : String := ""
  threshold_passed : Bool := true
deriving Repr, DecidableEq

/-- performance_score in PerformanceMonitor._generate_performance_report:
(total - failed) / total * 100 over the metrics whose name is thresholded,
or 100 when no thresholded metric exists. -/
def performance_score_calc (thresholds : List String)
    (ms : List PerformanceMetric) : ℚ :=
  let failed := ms.filter (fun m => !m.threshold_passed)
  let total := (ms.filter (fun m => thresholds.contains m.metric_name)).length
  if total > 0 then ((total : ℚ) - (failed.length : ℚ)) / (total : ℚ) * 100
  else 100

/-- The three severities of the shared taxonomy. -/
def allowed_severities : List String := ["critical", "major", "minor"]

/-- The severity argument of each AccessibilityTester._add_issue call site,
in source order (27 call sites, the only constructor of
AccessibilityIssue). -/
def accessibility_emitted_severities : List String :=
  ["critical", "critical", "major", "minor", "critical", "critical", "major",
   "major", "critical", "major", "minor", "minor", "major", "major", "minor",
   "minor", "major", "minor", "minor", "critical", "critical", "major",
   "major", "critical", "critical", "critical", "major"]

/-- The severity argument of each MobileResponsivenessTester._add_issue call
site, in source order (32 call sites, the only constructor of
ResponsivenessIssue). -/
def mobile_emitted_severities : List String :=
  ["critical", "major", "major", "major", "major", "minor", "minor", "major",
   "minor", "minor", "minor", "major", "minor", "minor", "major", "minor",
   "minor", "minor", "major", "minor", "minor", "major", "minor", "minor",
   "critical", "major", "minor", "major", "minor", "minor", "minor", "minor"]

/-- The severity argument of each FormattingValidator._add_issue call site,
in source order (23 call sites, the only constructor of FormattingIssue). -/
def formatting_emitted_severities : List String :=
  ["error", "warning", "info", "warning", "warning", "warning", "error",
   "info", "info", "warning", "info", "info", "info", "info", "warning",
   "info", "info", "info", "warning", "warning", "info", "error", "info"]

/-- Modelled from the spec: the re-normalized overall score the spec
prescribes for a run in which only the listed (weight, score) modules ran:
each weight is divided by the sum of the weights of the modules that ran,
the module scores are combined under these effective weights, and the result
is rounded to one decimal place. -/
def spec_renormalized_overall_score (ran : List (ℚ × ℚ)) : ℚ :=
  let wsum := (ran.map (fun p => p.1)).sum
  round1 ((ran.map (fun p => p.1 / wsum * p.2)).sum)

/-- Checkers that all return normally, each reporting the given module score
through its summary dict. -/
def checkers_with_scores (sl sf sa sm sp : ℚ) : Checkers :=
  { links := .ok { summary := some { success_rate := some sl } },
    formatting := .ok { summary := some { quality_score := some sf } },
    accessibility := .ok { summary := some { accessibility_score := some sa } },
    mobile := .ok { summary := some { responsiveness_score := some sm } },
    performance := .ok { summary := some { performance_score := some sp } } }

/-- A run whose accessibility checker raises while all other checkers would
return a perfect score. -/
def checkers_accessibility_raises : Checkers :=
  { links := .ok { summary := some { success_rate := some 100 } },
    formatting := .ok { summary := some { quality_score := some 100 } },
    accessibility := .error "boom",
    mobile := .ok { summary := some { responsiveness_score := some 100 } },
    performance := .ok { summary := some { performance_score := some 100 } } }

/-- A run whose link checker raises while all other checkers would return a
perfect score. -/
def checkers_link_raises : Checkers :=
  { links := .error "network down",
    formatting := .ok { summary := some { quality_score := some 100 } },
    accessibility := .ok { summary := some { accessibility_score := some 100 } },
    mobile := .ok { summary := some { responsiveness_score := some 100 } },
    performance := .ok { summary := some { performance_score := some 100 } } }

/-- A results dict in which the links module self-reported an error (error
key set, no summary) and every other module scored 100. -/
def results_links_error : Results :=
  [("link_check", { error := some "Connection refused" }),
   ("formatting", { summary := some { quality_score := some 100 } }),
   ("accessibility", { summary := some { accessibility_score := some 100 } }),
   ("mobile", { summary := some { responsiveness_score := some 100 } }),
   ("performance", { summary := some { performance_score := some 100 } })]

/-- A module result carrying an error together with a populated summary, used
to exercise the error branches of the score extraction. -/
def module_result_with_error : ModuleResult :=
  { summary := some
      { success_rate := some 20, quality_score := some 30,
        accessibility_score := some 40, responsiveness_score := some 55,
        performance_score := some 50 },
    error := some "boom" }

/-- Metrics with perfect scores and exactly 50 total issues. -/
def metrics_total50 : QualityMetrics :=
  { overall_score := 100, link_check_score := 100, formatting_score := 100,
    accessibility_score := 100, mobile_score := 100, performance_score := 100,
    total_issues := 50, critical_issues := 0, recommendations_count := 0 }

/-- Metrics with perfect scores and no issues. -/
def metrics_perfect : QualityMetrics :=
  { overall_score := 100, link_check_score := 100, formatting_score := 100,
    accessibility_score := 100, mobile_score := 100, performance_score := 100,
    total_issues := 0, critical_issues := 0, recommendations_count := 0 }

/-- Once the loop state carries no error, the error after the loop is the
message of the first non-skipped failing checker of the schedule. -/
theorem runModules_error_eq
    (mods : List (String × String × Except String ModuleResult))
    (skip : List String) (st : RunState) (h : st.error = none) :
    (runModules mods skip st).error = first_error_list mods skip := by
  induction mods generalizing st with
  | nil => simpa [runModules, first_error_list] using h
  | cons m rest ih =>
    obtain ⟨name, key, c⟩ := m
    by_cases hc : name ∈ skip
    · simp [runModules, first_error_list, h, hc, ih]
    · cases c with
      | ok r => simp [runModules, first_error_list, h, hc, ih]
      | error e => simp [runModules, first_error_list, h, hc]

/-- The error field of a run is the message of the first non-skipped failing
checker. -/
theorem run_qa_error_eq (ck : Checkers) (skip : List String) :
    (run_comprehensive_qa ck skip).error = first_error ck skip := by
  have h := runModules_error_eq (modulesOf ck) skip
    { results := [], executed := [], error := none } rfl
  unfold run_comprehensive_qa first_error
  rcases hst : (runModules (modulesOf ck) skip
      { results := [], executed := [], error := none }).error with _ | e <;>
    rw [hst] at h <;> simp [hst, ← h]

/-- Quality metrics are produced exactly when the run records no error. -/
theorem run_qa_metrics_isSome (ck : Checkers) (skip : List String) :
    (run_comprehensive_qa ck skip).quality_metrics.isSome =
      ((run_comprehensive_qa ck skip).error).isNone := by
  unfold run_comprehensive_qa
  rcases hst : (runModules (modulesOf ck) skip
      { results := [], executed := [], error := none }).error with _ | e <;>
    simp [hst]

/-- Gate results are produced exactly when the run records no error. -/
theorem run_qa_gates_isSome (ck : Checkers) (skip : List String) :
    (run_comprehensive_qa ck skip).quality_gates.isSome =
      ((run_comprehensive_qa ck skip).error).isNone := by
  unfold run_comprehensive_qa
  rcases hst : (runModules (modulesOf ck) skip
      { results := [], executed := [], error := none }).error with _ | e <;>
    simp [hst]

/-- C2 counterexample: in the run whose accessibility checker raises, the
aggregation is aborted at run level: no quality metrics are computed, the
failing module has no entry in the results (in particular no zero-score
entry with its error field set), the modules after it never execute, and the
exception message surfaces as the top-level error of the run — contradicting
the claim that the failing checker is isolated and the overall score is
still computed. -/
theorem C2_counterexample :
    (run_comprehensive_qa checkers_accessibility_raises []).quality_metrics
        = none ∧
    (run_comprehensive_qa checkers_accessibility_raises []).results.lookup
        "accessibility" = none ∧
    (run_comprehensive_qa checkers_accessibility_raises []).modules_executed
        = ["link_check", "formatting"] ∧
    (run_comprehensive_qa checkers_accessibility_raises []).error
        = some "boom" := by
  decide

/-- C2 amended: a checker exception never propagates out of
run_comprehensive_qa (the function is total), and the top-level error field
of the returned results is the message of the first non-skipped failing
checker; however the failing run is aborted rather than isolated: quality
metrics and gate results are produced exactly when no executed checker
raised. -/
theorem C2_error_handling_amended (ck : Checkers) (skip : List String) :
    (run_comprehensive_qa ck skip).error = first_error ck skip ∧
    (run_comprehensive_qa ck skip).quality_metrics.isSome =
      (first_error ck skip).isNone ∧
    (run_comprehensive_qa ck skip).quality_gates.isSome =
      (first_error ck skip).isNone := by
  refine ⟨run_qa_error_eq ck skip, ?_, ?_⟩
  · rw [run_qa_metrics_isSome ck skip, run_qa_error_eq ck skip]
  · rw [run_qa_gates_isSome ck skip, run_qa_error_eq ck skip]

/-- C7 counterexample: a configuration error is not the only failure mode
that aborts a run without a quality report: the hardcoded weights sum to
exactly 1 and five checkers are always registered, so the configuration is
never invalid, yet the run whose link checker raises produces no quality
metrics at all. -/
theorem C7_counterexample :
    (run_comprehensive_qa checkers_link_raises []).quality_metrics = none ∧
    (run_comprehensive_qa checkers_link_raises []).error
        = some "network down" ∧
    weights "link_score" + weights "formatting_score" +
      weights "accessibility_score" + weights "mobile_score" +
      weights "performance_score" = 1 :=
  ⟨by decide, by decide,
   by simp only [weights, String.reduceEq, reduceIte]; norm_num⟩

/-- C7 amended: there is no configuration validation and no
ConfigurationError in the code: the weighting dict is hardcoded (and does
sum to exactly 1.0) and the five checkers are always registered, so a run is
never aborted by configuration checking; instead a run fails to produce
quality metrics exactly when some non-skipped checker raises, in which case
the exception message is recorded in the error field of the returned
results. -/
theorem C7_configuration_amended :
    (weights "link_score" + weights "formatting_score" +
      weights "accessibility_score" + weights "mobile_score" +
      weights "performance_score" = 1) ∧
    (∀ ck : Checkers, (modulesOf ck).length = 5) ∧
    ∀ (ck : Checkers) (skip : List String),
      ((run_comprehensive_qa ck skip).quality_metrics = none ↔
        ∃ e, (run_comprehensive_qa ck skip).error = some e) := by
  refine ⟨by simp only [weights, String.reduceEq, reduceIte]; norm_num,
    fun ck => rfl, fun ck skip => ?_⟩
  constructor
  · intro hnone
    have h1 := run_qa_metrics_isSome ck skip
    rw [hnone] at h1
    cases herr : (run_comprehensive_qa ck skip).error with
    | none => rw [herr] at h1; simp at h1
    | some e => exact ⟨e, rfl⟩
  · rintro ⟨e, herr⟩
    have h1 := run_qa_metrics_isSome ck skip
    rw [herr] at h1
    simpa using h1

/-- C1 counterexample: with default weights, scores links=0 and 100 for the
other modules, and only performance skipped, the code computes
overall_score = 75.0 (the skipped module contributes the default score 100.0
at its full weight 0.15), while the claimed re-normalization yields
round(1200/17, 1) = 70.6; the two disagree, so the weights are not
re-normalized and the skipped module is not absent from the weighted sum. -/
theorem C1_counterexample :
    (run_comprehensive_qa (checkers_with_scores 0 100 100 100 100)
        ["performance"]).quality_metrics.map (fun q => q.overall_score)
      = some 75 ∧
    spec_renormalized_overall_score
        [(1/4, 0), (1/5, 100), (1/4, 100), (3/20, 100)] = 706/10 ∧
    (75 : ℚ) ≠ 706/10 := by
  refine ⟨?_, ?_, by norm_num⟩
  · simp [run_comprehensive_qa, runModules, modulesOf, checkers_with_scores,
      calculate_quality_metrics, link_score_of, formatting_score_of,
      accessibility_score_of, mobile_score_of, performance_score_of, weights,
      List.lookup, String.reduceEq, reduceIte]
    norm_num [round1, round_eq]
  · norm_num [spec_renormalized_overall_score, round1, round_eq]

/-- C1 amended: skipping a module does not remove it from the weighted sum
and no re-normalization happens: a skipped module's score silently defaults
to 100.0 and keeps its original weight, so with performance skipped the
overall score is the full five-term weighted sum with the performance term
fixed at 100 * 0.15. -/
theorem C1_skip_weighting_amended (sl sf sa sm sp : ℚ) :
    (run_comprehensive_qa (checkers_with_scores sl sf sa sm sp)
        ["performance"]).quality_metrics.map (fun q => q.overall_score)
      = some (round1 (sl * (25/100) + sf * (20/100) + sa * (25/100) +
          sm * (15/100) + 100 * (15/100))) := by
  simp [run_comprehensive_qa, runModules, modulesOf, checkers_with_scores,
    calculate_quality_metrics, link_score_of, formatting_score_of,
    accessibility_score_of, mobile_score_of, performance_score_of, weights,
    List.lookup, String.reduceEq, reduceIte]

/-- C3 counterexample: with the links module self-reporting an error (error
key set, no summary) and every other module scoring 100, the code computes
overall_score = 100.0, not the claimed 75.0: the error-marked module
contributes the default score 100.0 at its weight rather than a zero
score. -/
theorem C3_counterexample :
    (calculate_quality_metrics results_links_error).overall_score = 100 ∧
    link_score_of results_links_error = 100 ∧
    (100 : ℚ) ≠ 75 := by
  refine ⟨?_, ?_, by norm_num⟩
  · simp [calculate_quality_metrics, results_links_error, link_score_of,
      formatting_score_of, accessibility_score_of, mobile_score_of,
      performance_score_of, weights, List.lookup, String.reduceEq, reduceIte]
    norm_num [round1, round_eq]
  · simp [link_score_of, results_links_error, List.lookup, String.reduceEq,
      reduceIte]

/-- C3 amended: a module result whose error field is set contributes the
default score 100.0 to the weighted sum, not 0: for mobile and performance
the error key suppresses the summary lookup and the default 100.0 stands
(even when the summary carries a lower score), and for the links, formatting
and accessibility modules the error key is not consulted at all, so the
summary-derived score (default 100.0) is used unchanged; the module's weight
is still counted, but at score 100 rather than 0. -/
theorem C3_module_error_amended (m : ModuleResult) (e : String)
    (h : m.error = some e) :
    mobile_score_of [("mobile", m)] = 100 ∧
    performance_score_of [("performance", m)] = 100 ∧
    link_score_of [("link_check", m)]
      = link_score_of [("link_check", { m with error := none })] ∧
    formatting_score_of [("formatting", m)]
      = formatting_score_of [("formatting", { m with error := none })] ∧
    accessibility_score_of [("accessibility", m)]
      = accessibility_score_of [("accessibility", { m with error := none })] := by
  refine ⟨?_, ?_, ?_, ?_, ?_⟩ <;>
    simp [mobile_score_of, performance_score_of, link_score_of,
      formatting_score_of, accessibility_score_of, List.lookup, h,
      String.reduceEq, reduceIte]

/-- C3 witness: the amended statement at a concrete module result whose
error field is set while its summary still reports score 55 for mobile. -/
theorem C3_module_error_amended_witness :
    mobile_score_of [("mobile", module_result_with_error)] = 100 ∧
    performance_score_of [("performance", module_result_with_error)] = 100 ∧
    link_score_of [("link_check", module_result_with_error)]
      = link_score_of
          [("link_check", { module_result_with_error with error := none })] ∧
    formatting_score_of [("formatting", module_result_with_error)]
      = formatting_score_of
          [("formatting", { module_result_with_error with error := none })] ∧
    accessibility_score_of [("accessibility", module_result_with_error)]
      = accessibility_score_of
          [("accessibility", { module_result_with_error with error := none })] :=
  C3_module_error_amended module_result_with_error "boom" rfl

/-- C4 counterexample: the formatting checker emits findings whose severity
is the string error (as well as warning and info), which is not one of the
three enumerated severities critical, major, minor; so not every finding of
every checker carries one of the three enumerated values, and no mapping of
unmapped severities to minor exists. -/
theorem C4_counterexample :
    "error" ∈ formatting_emitted_severities ∧
    "error" ∉ allowed_severities := by
  decide

/-- C4 amended: the accessibility and mobile checkers emit only the three
enumerated severities critical, major, minor, but the formatting checker
emits the severities error, warning and info, which flow into its report
unchanged (no re-mapping to minor exists anywhere): a detailed issue with
severity error is counted by the dashboard in total_issues yet never in
critical_issues. -/
theorem C4_severity_taxonomy_amended :
    accessibility_emitted_severities.all
      (fun s => allowed_severities.contains s) = true ∧
    mobile_emitted_severities.all
      (fun s => allowed_severities.contains s) = true ∧
    formatting_emitted_severities.all
      (fun s => ["error", "warning", "info"].contains s) = true ∧
    formatting_emitted_severities.all
      (fun s => allowed_severities.contains s) = false ∧
    module_total_issues
      { detailed_issues := some [{ severity := some "error" }] } = 1 ∧
    module_critical_issues
      { detailed_issues := some [{ severity := some "error" }] } = 0 := by
  decide

/-- C5 counterexample: the total_issues gate uses a strict comparison, not
at-most: with exactly 50 total issues and the default threshold 50 the gate
fails even though actual <= threshold, contradicting the claim that an
issue-count gate passes if and only if actual <= threshold. -/
theorem C5_counterexample :
    ((check_quality_gates default_quality_gates metrics_total50).gates.lookup
        "total_issues")
      = some { threshold := 50, actual := 50, passed := false } ∧
    (50 : ℚ) ≤ 50 := by
  refine ⟨?_, le_refl _⟩
  simp [check_quality_gates, default_quality_gates, metrics_total50,
    metric_value_of, gate_passed, List.lookup, String.reduceEq, reduceIte]

/-- C5 amended: the comparison direction is keyed on the gate name: the
critical_issues gate passes if and only if actual <= threshold, the
total_issues gate passes if and only if actual < threshold (strictly), and
every other gate (the score gates) passes if and only if actual >=
threshold. -/
theorem C5_gate_comparisons_amended (m : QualityMetrics) (t : ℚ) :
    (check_quality_gates [("critical_issues", t)] m).gates
      = [("critical_issues",
          { threshold := t, actual := (m.critical_issues : ℚ),
            passed := decide ((m.critical_issues : ℚ) ≤ t) })] ∧
    (check_quality_gates [("total_issues", t)] m).gates
      = [("total_issues",
          { threshold := t, actual := (m.total_issues : ℚ),
            passed := decide ((m.total_issues : ℚ) < t) })] ∧
    (check_quality_gates [("overall_score", t)] m).gates
      = [("overall_score",
          { threshold := t, actual := m.overall_score,
            passed := decide (m.overall_score ≥ t) })] ∧
    (check_quality_gates [("link_check_score", t)] m).gates
      = [("link_check_score",
          { threshold := t, actual := m.link_check_score,
            passed := decide (m.link_check_score ≥ t) })] := by
  refine ⟨?_, ?_, ?_, ?_⟩ <;>
    simp [check_quality_gates, metric_value_of, gate_passed,
      String.reduceEq, reduceIte]

/-- C6 counterexample: a gate naming a metric absent from the metrics object
does not fail closed: the missing value defaults to 0 and the gate is
evaluated as a score gate, so with threshold 0 it passes. -/
theorem C6_counterexample :
    "nonexistent_metric" ∉ metric_attribute_names ∧
    ((check_quality_gates [("nonexistent_metric", 0)] metrics_total50).gates.map
        (fun g => g.2.passed)) = [true] := by
  refine ⟨by decide, ?_⟩
  simp [check_quality_gates, metric_value_of, gate_passed,
    String.reduceEq, reduceIte]

/-- C6 amended: gate evaluation never raises (it is a total function), and a
gate whose name matches no metric attribute is evaluated with the default
actual value 0 under the score-gate comparison: it passes exactly when
0 >= threshold, so it fails for positive thresholds but passes for zero or
negative ones. -/
theorem C6_missing_metric_amended (m : QualityMetrics) (t : ℚ) (name : String)
    (h : name ∉ metric_attribute_names) :
    (check_quality_gates [(name, t)] m).gates
      = [(name, { threshold := t, actual := 0,
                  passed := decide ((0 : ℚ) ≥ t) })] := by
  simp only [metric_attribute_names, List.mem_cons, List.not_mem_nil,
    or_false, not_or] at h
  obtain ⟨h1, h2, h3, h4, h5, h6, h7, h8, h9⟩ := h
  simp [check_quality_gates, metric_value_of, gate_passed,
    h1, h2, h3, h4, h5, h6, h7, h8, h9]

/-- C6 witness: the amended statement at the concrete missing gate name
nonexistent_metric with threshold 1. -/
theorem C6_missing_metric_amended_witness :
    (check_quality_gates [("nonexistent_metric", (1 : ℚ))] metrics_total50).gates
      = [("nonexistent_metric",
          { threshold := 1, actual := 0, passed := decide ((0 : ℚ) ≥ 1) })] :=
  C6_missing_metric_amended metrics_total50 1 "nonexistent_metric" (by decide)

/-- Filtering by a property that implies another property on the elements of
a list yields at most as many elements as filtering by the implied
property. -/
theorem filter_length_le_of_imp {α : Type} (p q : α → Bool) (l : List α)
    (h : ∀ a ∈ l, p a = true → q a = true) :
    (l.filter p).length ≤ (l.filter q).length := by
  induction l with
  | nil => simp
  | cons a l ih =>
    have h' : ∀ a ∈ l, p a = true → q a = true :=
      fun a ha => h a (List.mem_cons_of_mem _ ha)
    have hihl := ih h'
    rw [List.filter_cons, List.filter_cons]
    by_cases hp : p a = true
    · rw [if_pos hp, if_pos (h a (List.mem_cons_self a l) hp)]
      simpa using Nat.succ_le_succ hihl
    · rw [if_neg hp]
      by_cases hq : q a = true
      · rw [if_pos hq]
        simp only [List.length_cons]
        omega
      · rw [if_neg hq]
        exact hihl

/-- Mapping a function through a list and testing a property that mirrors a
property of the original elements does not change the result of all. -/
theorem all_map_mirror {α β : Type} (p : α → Bool) (f : α → β) (q : β → Bool)
    (hf : ∀ a, q (f a) = p a) (l : List α) : (l.map f).all q = l.all p := by
  induction l with
  | nil => rfl
  | cons a l ih => simp only [List.map_cons, List.all_cons, hf, ih]

/-- Mapping a function through a list and filtering by a property that
mirrors a property of the original elements preserves the filtered
length. -/
theorem filter_map_mirror_length {α β : Type} (p : α → Bool) (f : α → β)
    (q : β → Bool) (hf : ∀ a, q (f a) = p a) (l : List α) :
    ((l.map f).filter q).length = (l.filter p).length := by
  induction l with
  | nil => rfl
  | cons a l ih =>
    simp only [List.map_cons, List.filter_cons, hf]
    cases p a <;> simp [ih]

/-- C8: the synthetic overall gate entry records PASS exactly when every
named gate of the gate specification passes (the conjunction over the input
gate specs, computed before the overall entry is inserted), and it exposes
the number of passing named gates and the total number of named gates;
moreover in the all-perfect scenario (five modules scoring 100, default
weights, default gates) the overall score is 100.0 and the overall gate
passes. -/
theorem C8_overall_gate :
    (∀ (gates : List (String × ℚ)) (m : QualityMetrics),
      (check_quality_gates gates m).overall_passed
        = gates.all (fun g => gate_passed g.1 (metric_value_of m g.1) g.2) ∧
      (check_quality_gates gates m).passed_gates
        = (gates.filter
            (fun g => gate_passed g.1 (metric_value_of m g.1) g.2)).length ∧
      (check_quality_gates gates m).total_gates = gates.length) ∧
    (run_comprehensive_qa (checkers_with_scores 100 100 100 100 100)
        []).quality_metrics.map (fun q => q.overall_score) = some 100 ∧
    (run_comprehensive_qa (checkers_with_scores 100 100 100 100 100)
        []).quality_gates.map (fun g => g.overall_passed) = some true := by
  refine ⟨fun gates m => ⟨?_, ?_, ?_⟩, ?_, ?_⟩
  · exact all_map_mirror _ _ _ (fun a => rfl) gates
  · exact filter_map_mirror_length _ _ _ (fun a => rfl) gates
  · simp [check_quality_gates]
  · simp [run_comprehensive_qa, runModules, modulesOf, checkers_with_scores,
      calculate_quality_metrics, link_score_of, formatting_score_of,
      accessibility_score_of, mobile_score_of, performance_score_of, weights,
      module_total_issues, module_critical_issues,
      module_recommendations_count, List.lookup, round1, round_eq,
      String.reduceEq, reduceIte]
    norm_num
  · simp [run_comprehensive_qa, runModules, modulesOf, checkers_with_scores,
      calculate_quality_metrics, link_score_of, formatting_score_of,
      accessibility_score_of, mobile_score_of, performance_score_of, weights,
      module_total_issues, module_critical_issues,
      module_recommendations_count, check_quality_gates,
      default_quality_gates, metric_value_of, gate_passed, List.lookup,
      round1, round_eq, String.reduceEq, reduceIte]
    norm_num

/-- C9: each checker-computed module score lies in the interval from 0 to
100 and is monotonically non-increasing in each per-severity finding count:
the formatting quality score (penalties 10/3/1 for error/warning/info), the
accessibility score (15/5/1 for critical/major/minor) and the mobile
responsiveness score (20/5/1 for critical/major/minor); the link checker
success rate likewise always lies between 0 and 100. -/
theorem C9_score_bounds_monotone :
    (∀ e w i : ℕ, 0 ≤ quality_score e w i ∧ quality_score e w i ≤ 100) ∧
    (∀ c ma mi : ℕ,
      0 ≤ accessibility_score c ma mi ∧ accessibility_score c ma mi ≤ 100) ∧
    (∀ c ma mi : ℕ,
      0 ≤ responsiveness_score c ma mi ∧ responsiveness_score c ma mi ≤ 100) ∧
    (∀ e e' w w' i i' : ℕ, e ≤ e' → w ≤ w' → i ≤ i' →
      quality_score e' w' i' ≤ quality_score e w i) ∧
    (∀ c c' ma ma' mi mi' : ℕ, c ≤ c' → ma ≤ ma' → mi ≤ mi' →
      accessibility_score c' ma' mi' ≤ accessibility_score c ma mi) ∧
    (∀ c c' ma ma' mi mi' : ℕ, c ≤ c' → ma ≤ ma' → mi ≤ mi' →
      responsiveness_score c' ma' mi' ≤ responsiveness_score c ma mi) ∧
    (∀ links : List LinkResult,
      0 ≤ success_rate_of links ∧ success_rate_of links ≤ 100) ∧
    (∀ (thresholds : List String) (ms : List PerformanceMetric),
      (∀ m ∈ ms, m.threshold_passed = false →
        thresholds.contains m.metric_name = true) →
      0 ≤ performance_score_calc thresholds ms ∧
      performance_score_calc thresholds ms ≤ 100) := by
  refine ⟨?_, ?_, ?_, ?_, ?_, ?_, ?_, ?_⟩
  · intro e w i; simp only [quality_score]; omega
  · intro c ma mi; simp only [accessibility_score]; omega
  · intro c ma mi; simp only [responsiveness_score]; omega
  · intro e e' w w' i i' h1 h2 h3; simp only [quality_score]; omega
  · intro c c' ma ma' mi mi' h1 h2 h3
    simp only [accessibility_score]; omega
  · intro c c' ma ma' mi mi' h1 h2 h3
    simp only [responsiveness_score]; omega
  · intro links
    simp only [success_rate_of]
    by_cases h : links.length > 0
    · rw [if_pos h]
      have hv : ((links.filter (fun r => r.is_valid)).length : ℚ)
          ≤ (links.length : ℚ) := by
        exact_mod_cast List.length_filter_le _ _
      have ht : (0 : ℚ) < (links.length : ℚ) := by exact_mod_cast h
      constructor
      · positivity
      · have h1 : ((links.filter (fun r => r.is_valid)).length : ℚ)
            / (links.length : ℚ) ≤ 1 := (div_le_one ht).mpr hv
        calc ((links.filter (fun r => r.is_valid)).length : ℚ)
              / (links.length : ℚ) * 100
            ≤ 1 * 100 := mul_le_mul_of_nonneg_right h1 (by norm_num)
          _ = 100 := by norm_num
    · rw [if_neg h]
      norm_num
  · intro thresholds ms hm
    simp only [performance_score_calc]
    by_cases h :
        (ms.filter (fun m => thresholds.contains m.metric_name)).length > 0
    · rw [if_pos h]
      have hle : (ms.filter (fun m => !m.threshold_passed)).length ≤
          (ms.filter (fun m => thresholds.contains m.metric_name)).length := by
        apply filter_length_le_of_imp
        intro a ha hpa
        have hfalse : a.threshold_passed = false := by
          cases hab : a.threshold_passed
          · rfl
          · rw [hab] at hpa; simp at hpa
        exact hm a ha hfalse
      have ht : (0 : ℚ) <
          ((ms.filter (fun m => thresholds.contains m.metric_name)).length : ℚ) := by
        exact_mod_cast h
      have hf0 : (0 : ℚ) ≤
          ((ms.filter (fun m => !m.threshold_passed)).length : ℚ) := by
        positivity
      have hft : ((ms.filter (fun m => !m.threshold_passed)).length : ℚ) ≤
          ((ms.filter (fun m => thresholds.contains m.metric_name)).length : ℚ) := by
        exact_mod_cast hle
      constructor
      · exact mul_nonneg (div_nonneg (by linarith) ht.le) (by norm_num)
      · have h1 :
            (((ms.filter (fun m => thresholds.contains m.metric_name)).length : ℚ) -
              ((ms.filter (fun m => !m.threshold_passed)).length : ℚ)) /
              ((ms.filter (fun m => thresholds.contains m.metric_name)).length : ℚ)
              ≤ 1 := (div_le_one ht).mpr (by linarith)
        calc (((ms.filter (fun m => thresholds.contains m.metric_name)).length : ℚ) -
              ((ms.filter (fun m => !m.threshold_passed)).length : ℚ)) /
              ((ms.filter (fun m => thresholds.contains m.metric_name)).length : ℚ)
              * 100
            ≤ 1 * 100 := mul_le_mul_of_nonneg_right h1 (by norm_num)
          _ = 100 := by norm_num
    · rw [if_neg h]
      norm_num

/-- C9 witness: the bounds and the monotonicity at concrete finding
counts. -/
theorem C9_score_bounds_monotone_witness :
    (0 ≤ quality_score 2 3 4 ∧ quality_score 2 3 4 ≤ 100) ∧
    quality_score 3 4 5 ≤ quality_score 2 3 4 ∧
    accessibility_score 2 4 6 ≤ accessibility_score 1 3 5 ∧
    responsiveness_score 2 4 6 ≤ responsiveness_score 1 3 5 ∧
    (0 ≤ performance_score_calc ["page_load_time"]
        [{ metric_name := "page_load_time", threshold_passed := false },
         { metric_name := "untracked", threshold_passed := true }] ∧
      performance_score_calc ["page_load_time"]
        [{ metric_name := "page_load_time", threshold_passed := false },
         { metric_name := "untracked", threshold_passed := true }] ≤ 100) := by
  have h := C9_score_bounds_monotone
  exact ⟨h.1 2 3 4,
    h.2.2.2.1 2 3 3 4 4 5 (by decide) (by decide) (by decide),
    h.2.2.2.2.1 1 2 3 4 5 6 (by decide) (by decide) (by decide),
    h.2.2.2.2.2.1 1 2 3 4 5 6 (by decide) (by decide) (by decide),
    h.2.2.2.2.2.2.2 ["page_load_time"]
      [{ metric_name := "page_load_time", threshold_passed := false },
       { metric_name := "untracked", threshold_passed := true }]
      (by decide)⟩

/-- C10: when the link checker finds zero links, its generated report states
a success_rate of exactly 100, and the links module score consumed by the
aggregation — both the raw extracted score and the rounded link_check_score
metric — is exactly 100, so an empty content root yields a perfect link
score. -/
theorem C10_empty_links_perfect :
    success_rate_of [] = 100 ∧
    ((generate_link_report []).summary.getD {}).success_rate = some 100 ∧
    link_score_of [("link_check", generate_link_report [])] = 100 ∧
    (calculate_quality_metrics
        [("link_check", generate_link_report [])]).link_check_score = 100 := by
  refine ⟨?_, ?_, ?_, ?_⟩
  · simp [success_rate_of]
  · simp [generate_link_report, success_rate_of]
    norm_num [round2, round_eq]
  · simp [link_score_of, generate_link_report, success_rate_of, List.lookup,
      String.reduceEq, reduceIte]
    norm_num [round2, round_eq]
  · simp [calculate_quality_metrics, link_score_of, generate_link_report,
      success_rate_of, List.lookup, String.reduceEq, reduceIte]
    norm_num [round1, round2, round_eq]
